import Mathlib

/-!
Shallow embedding of the drag-and-drop gesture engine of
`src/DndProvider.tsx` (react-native-dnd).

Modelling conventions:
- Item identifiers are `Nat`.
- Coordinates, offsets and translations are `Int` (the engine's logic uses
  only addition, subtraction and order comparisons, which are identical over
  any linearly ordered ring; exact arithmetic keeps every predicate
  decidable).
- The shared registry maps (`draggableLayouts`, `draggableOptions`, ...) are
  association lists `List (Nat × α)`; JavaScript `Object.entries` iteration
  order is the list order, and `m[id]` is an `Option`-valued lookup.
- A JavaScript property dereference on a missing entry (`options[id].disabled`
  when `options[id]` is `undefined`) throws; handlers therefore return
  `Except Unit _`, with `.error ()` standing for the thrown `TypeError`.
- The deferred activation of `setActiveId` (a `setTimeout`) is modelled as an
  explicit scheduled task in the state (`scheduledTask`); firing the timer is
  the separate step `setActiveIdFired`, and `clearActiveIdTimeout` clears the
  task.  The per-axis reanimated spring animations started by
  `animatePointWithSpring` are modelled as the sets `animatingX`/`animatingY`
  of item ids with an in-flight animation on that axis; `cancelAnimation`
  removes an id from the set.  The settle callback body passed to
  `animatePointWithSpring` in `onFinalize` is the separate step `onSettle`.
- The consumer callbacks (`onBegin`, `onUpdate`, `onFinalize`, `onDragEnd`)
  are modelled as emitted events (`CbEvent`) rather than function props; a
  handler returns the list of callback invocations it performed, in order.
-/

/-- A 2D point / offset vector `{x, y}`. -/
structure Point where
  x : Int
  y : Int
deriving DecidableEq, Repr

/-- A layout rectangle `{x, y, width, height}`. -/
structure Rectangle where
  x : Int
  y : Int
  width : Int
  height : Int
deriving DecidableEq, Repr

/-- Modelled from the spec: the geometry utility `includesPoint` of the
missing `utils` module — true iff the point lies within the rectangle's
closed bounds. -/
def includesPoint (rect : Rectangle) (p : Point) : Bool :=
  rect.x ≤ p.x && p.x ≤ rect.x + rect.width &&
  rect.y ≤ p.y && p.y ≤ rect.y + rect.height

/-- Modelled from the spec: the geometry utility `overlapsRectangle` of the
missing `utils` module — true iff the two axis-aligned rectangles have a
non-empty (strict interior) overlap; edge-touching does not count. -/
def overlapsRectangle (a b : Rectangle) : Bool :=
  a.x < b.x + b.width && b.x < a.x + a.width &&
  a.y < b.y + b.height && b.y < a.y + a.height

/-- Modelled from the spec: the geometry utility `applyOffset` of the missing
`utils` module — translates a rectangle's origin by an offset, size
unchanged. -/
def applyOffset (rect : Rectangle) (offset : Point) : Rectangle :=
  { rect with x := rect.x + offset.x, y := rect.y + offset.y }

/-- Modelled from the spec: the geometry utility `getDistance` of the missing
`utils` module is the Euclidean norm, used only in the comparison
`getDistance(dx, dy) > activationTolerance` with `activationTolerance ≥ 0`.
We model the squared norm and compare it against the squared tolerance,
which is equivalent and stays in exact integer arithmetic. -/
def getDistanceSq (dx dy : Int) : Int :=
  dx * dx + dy * dy

/-- Per-draggable configuration (`disabled`, `activationDelay`,
`activationTolerance`, opaque payload `data`). -/
structure DraggableOpts where
  disabled : Bool
  activationDelay : Nat
  activationTolerance : Nat
  data : Int
deriving DecidableEq, Repr

/-- Per-droppable configuration (`disabled`, opaque payload `data`). -/
structure DroppableOpts where
  disabled : Bool
  data : Int
deriving DecidableEq, Repr

/-- The per-item drag state machine states. -/
inductive DragState where
  | resting
  | pending
  | dragging
  | acting
deriving DecidableEq, Repr

/-- The raw states of the underlying pan-gesture recognizer
(react-native-gesture-handler `State`). -/
inductive GState where
  | undetermined
  | failed
  | began
  | cancelled
  | active
  | ended
deriving DecidableEq, Repr

/-- JavaScript map read `m[id]`: first entry with the given key, if any. -/
def lookupId {α : Type} (l : List (Nat × α)) (id : Nat) : Option α :=
  (l.find? (fun e => e.1 == id)).map (fun e => e.2)

/-- JavaScript map write `m[id].value = v` on an existing entry: replace the
value at the key, keep everything else. -/
def setEntry {α : Type} (l : List (Nat × α)) (id : Nat) (v : α) :
    List (Nat × α) :=
  l.map (fun e => if e.1 == id then (id, v) else e)

/-- The shared state of the provider: registry maps, interaction cursor,
recognizer-state mirror, the scheduled delayed-activation task, and the ids
with an in-flight offset animation per axis. -/
structure DndState where
  draggableLayouts : List (Nat × Rectangle)
  droppableLayouts : List (Nat × Rectangle)
  draggableOptions : List (Nat × DraggableOpts)
  droppableOptions : List (Nat × DroppableOpts)
  draggableOffsets : List (Nat × Point)
  draggableRestingOffsets : List (Nat × Point)
  draggableStates : List (Nat × DragState)
  draggablePendingId : Option Nat
  draggableActiveId : Option Nat
  droppableActiveId : Option Nat
  draggableActiveLayout : Option Rectangle
  draggableInitialOffset : Point
  draggableContentOffset : Point
  panGestureState : GState
  scheduledTask : Option Nat
  animatingX : List Nat
  animatingY : List Nat
deriving DecidableEq, Repr

/-- Provider configuration relevant to the handlers (`disabled`; the other
props configure the external recognizer or the spring, not the handlers). -/
structure Config where
  disabled : Bool
deriving DecidableEq, Repr

/-- A consumer-callback invocation performed by a handler. -/
inductive CbEvent where
  | begin (activeId : Nat) (activeLayout : Rectangle)
  | update (activeId : Nat) (activeLayout : Rectangle)
      (droppableActiveId : Option Nat)
  | finalize (activeId : Nat) (activeLayout : Rectangle)
  | dragEnd (active : Option DraggableOpts) (over : Option DroppableOpts)
deriving DecidableEq, Repr

/-- `Begin` gesture event payload. -/
structure BeginEvent where
  state : GState
  x : Int
  y : Int
deriving DecidableEq, Repr

/-- `Update` gesture event payload. -/
structure UpdateEvent where
  state : GState
  translationX : Int
  translationY : Int
deriving DecidableEq, Repr

/-- `Finalize` gesture event payload. -/
structure FinalizeEvent where
  state : GState
  velocityX : Int
  velocityY : Int
deriving DecidableEq, Repr

/-- The loop body of `findActiveLayoutId` (DndProvider.tsx lines 162-175):
walk the draggable layouts in iteration order; dereference
`options[id].disabled` (throws when absent); skip disabled items; for a
non-disabled item dereference `offsets[id]` (throws when absent) and test
whether the pointer, corrected by the item's live offset and the content
offset, lies inside the layout; return the first match. -/
def findActiveLayoutIdAux (options : List (Nat × DraggableOpts))
    (offsets : List (Nat × Point)) (contentOffset : Point) (p : Point) :
    List (Nat × Rectangle) → Except Unit (Option Nat)
  | [] => .ok none
  | (id, layout) :: rest =>
    match lookupId options id with
    | none => .error ()
    | some opt =>
      if opt.disabled then
        findActiveLayoutIdAux options offsets contentOffset p rest
      else
        match lookupId offsets id with
        | none => .error ()
        | some offset =>
          if includesPoint layout
              ⟨p.x - offset.x + contentOffset.x,
               p.y - offset.y + contentOffset.y⟩ then
            .ok (some id)
          else
            findActiveLayoutIdAux options offsets contentOffset p rest

/-- `findActiveLayoutId` (DndProvider.tsx lines 156-177). -/
def findActiveLayoutId (s : DndState) (p : Point) : Except Unit (Option Nat) :=
  findActiveLayoutIdAux s.draggableOptions s.draggableOffsets
    s.draggableContentOffset p s.draggableLayouts

/-- The loop body of `findDroppableLayoutId` (DndProvider.tsx lines 179-191):
walk the droppable layouts in iteration order; dereference
`options[id].disabled` (throws when absent); return the first non-disabled
droppable whose layout overlaps the active layout. -/
def findDroppableLayoutIdAux (options : List (Nat × DroppableOpts))
    (activeLayout : Rectangle) :
    List (Nat × Rectangle) → Except Unit (Option Nat)
  | [] => .ok none
  | (id, layout) :: rest =>
    match lookupId options id with
    | none => .error ()
    | some opt =>
      if !opt.disabled && overlapsRectangle activeLayout layout then
        .ok (some id)
      else
        findDroppableLayoutIdAux options activeLayout rest

/-- `findDroppableLayoutId` (DndProvider.tsx lines 179-191). -/
def findDroppableLayoutId (s : DndState) (activeLayout : Rectangle) :
    Except Unit (Option Nat) :=
  findDroppableLayoutIdAux s.droppableOptions activeLayout s.droppableLayouts

/-- The body of the `setTimeout` scheduled by `setActiveId`
(DndProvider.tsx lines 200-209), as the explicit step that fires the
scheduled delayed-activation task: set `draggableActiveId` to the recorded
id and write `draggableStates[id].value = "dragging"` (the write throws when
the entry is absent); the task is consumed.  `draggablePendingId` is not
touched.  When no task is scheduled (it was cleared, or already fired) the
step is a no-op. -/
def setActiveIdFired (s : DndState) : Except Unit DndState :=
  match s.scheduledTask with
  | none => .ok s
  | some id =>
    match lookupId s.draggableStates id with
    | none => .error ()
    | some _ =>
      .ok { s with
              draggableActiveId := some id
              draggableStates := setEntry s.draggableStates id .dragging
              scheduledTask := none }

/-- `panGesture.onBegin` (DndProvider.tsx lines 212-272). -/
def onBegin (cfg : Config) (ev : BeginEvent) (s : DndState) :
    Except Unit (DndState × List CbEvent) :=
  if cfg.disabled then
    .ok (s, [])
  else
    let s := { s with panGestureState := ev.state }
    match findActiveLayoutId s ⟨ev.x, ev.y⟩ with
    | .error e => .error e
    | .ok none => .ok (s, [])
    | .ok (some activeId) =>
      match lookupId s.draggableLayouts activeId with
      | none => .error ()
      | some activeLayout =>
        match lookupId s.draggableStates activeId with
        | none => .error ()
        | some activeState =>
          match lookupId s.draggableOffsets activeId with
          | none => .error ()
          | some activeOffset =>
            let s := { s with draggableInitialOffset := activeOffset }
            match
              (if activeState = DragState.dragging ∨
                  activeState = DragState.acting then
                -- cancelAnimation on both axes of the live offset
                .ok { s with
                        animatingX := s.animatingX.filter (fun j => j ≠ activeId)
                        animatingY := s.animatingY.filter (fun j => j ≠ activeId) }
              else
                -- restingOffset.{x,y}.value = activeOffset.{x,y}.value
                match lookupId s.draggableRestingOffsets activeId with
                | none => .error ()
                | some _ =>
                  .ok { s with
                          draggableRestingOffsets :=
                            setEntry s.draggableRestingOffsets activeId
                              activeOffset } : Except Unit DndState)
            with
            | .error e => .error e
            | .ok s =>
              match lookupId s.draggableOptions activeId with
              | none => .error ()
              | some opts =>
                if opts.activationDelay > 0 then
                  .ok ({ s with
                           draggablePendingId := some activeId
                           draggableStates :=
                             setEntry s.draggableStates activeId .pending
                           scheduledTask := some activeId },
                       [.begin activeId activeLayout])
                else
                  .ok ({ s with
                           draggableActiveId := some activeId
                           draggableActiveLayout :=
                             some (applyOffset activeLayout activeOffset)
                           draggableStates :=
                             setEntry s.draggableStates activeId .dragging },
                       [.begin activeId activeLayout])

/-- `panGesture.onUpdate` (DndProvider.tsx lines 273-313). -/
def onUpdate (ev : UpdateEvent) (s : DndState) :
    Except Unit (DndState × List CbEvent) :=
  let s := { s with panGestureState := ev.state }
  match s.draggableActiveId with
  | none =>
    match s.draggablePendingId with
    | none => .ok (s, [])
    | some pendingId =>
      match lookupId s.draggableOptions pendingId with
      | none => .error ()
      | some opts =>
        if getDistanceSq ev.translationX ev.translationY >
            (opts.activationTolerance : Int) * (opts.activationTolerance : Int)
        then
          .ok ({ s with
                   scheduledTask := none
                   draggablePendingId := none }, [])
        else
          .ok (s, [])
  | some activeId =>
    match lookupId s.draggableOffsets activeId with
    | none => .error ()
    | some _ =>
      let newOffset : Point :=
        ⟨s.draggableInitialOffset.x + ev.translationX,
         s.draggableInitialOffset.y + ev.translationY⟩
      let s := { s with
                   draggableOffsets :=
                     setEntry s.draggableOffsets activeId newOffset }
      match lookupId s.draggableLayouts activeId with
      | none => .error ()
      | some activeLayout =>
        let newActiveLayout := applyOffset activeLayout newOffset
        let s := { s with draggableActiveLayout := some newActiveLayout }
        match findDroppableLayoutId s newActiveLayout with
        | .error e => .error e
        | .ok dropId =>
          .ok ({ s with droppableActiveId := dropId },
               [.update activeId newActiveLayout dropId])

/-- `panGesture.onFinalize` (DndProvider.tsx lines 314-385), up to and
including starting the spring-return animation; the settle callback it
installs is the separate step `onSettle`. -/
def onFinalize (ev : FinalizeEvent) (s : DndState) :
    Except Unit (DndState × List CbEvent) :=
  let s := { s with panGestureState := ev.state }
  match s.draggableActiveId with
  | none =>
    match s.draggablePendingId with
    | none => .ok (s, [])
    | some _ =>
      .ok ({ s with
               scheduledTask := none
               draggablePendingId := none }, [])
  | some activeId =>
    let s := { s with draggableActiveId := none }
    match lookupId s.draggableLayouts activeId with
    | none => .error ()
    | some activeLayout =>
      match lookupId s.draggableOffsets activeId with
      | none => .error ()
      | some activeOffset =>
        let finalizeEvents : List CbEvent :=
          [.finalize activeId (applyOffset activeLayout activeOffset)]
        let dragEndEvents : List CbEvent :=
          if ev.state ≠ GState.failed then
            [.dragEnd (lookupId s.draggableOptions activeId)
               (match s.droppableActiveId with
                | some dropId => lookupId s.droppableOptions dropId
                | none => none)]
          else
            []
        let s := { s with droppableActiveId := none }
        match lookupId s.draggableStates activeId with
        | none => .error ()
        | some _ =>
          let s := { s with
                       draggableStates :=
                         setEntry s.draggableStates activeId .acting }
          match lookupId s.draggableRestingOffsets activeId with
          | none => .error ()
          | some _ =>
            -- animatePointWithSpring: start an animation on each axis
            .ok ({ s with
                     animatingX :=
                       activeId :: s.animatingX.filter (fun j => j ≠ activeId)
                     animatingY :=
                       activeId :: s.animatingY.filter (fun j => j ≠ activeId) },
                 finalizeEvents ++ dragEndEvents)

/-- The settle callback installed by `onFinalize`
(DndProvider.tsx lines 367-383), fired by the animation collaborator when
both axes settle: if the last-observed recognizer state is neither `END` nor
`FAILED` and the item's state is no longer `acting`, return without change;
otherwise write `states[activeId].value = "resting"`.  Either path
dereferences `states[activeId]` (throws when absent). -/
def onSettle (activeId : Nat) (s : DndState) : Except Unit DndState :=
  match lookupId s.draggableStates activeId with
  | none => .error ()
  | some st =>
    if s.panGestureState ≠ GState.ended ∧ s.panGestureState ≠ GState.failed ∧
        st ≠ DragState.acting then
      .ok s
    else
      .ok { s with
              draggableStates := setEntry s.draggableStates activeId .resting }

/-- Spec-side hit predicate for a draggable entry: the item is non-disabled
and the pointer, corrected by `contentOffset` and by the item's own live
offset, lies inside its layout rectangle.  (Entries with a missing
options/offsets record never match; well-formed states have none.) -/
def hitTest (options : List (Nat × DraggableOpts)) (offsets : List (Nat × Point))
    (contentOffset p : Point) (e : Nat × Rectangle) : Bool :=
  match lookupId options e.1, lookupId offsets e.1 with
  | some opt, some offset =>
    !opt.disabled && includesPoint e.2
      ⟨p.x - offset.x + contentOffset.x, p.y - offset.y + contentOffset.y⟩
  | _, _ => false

/-- Spec-side selection: the first draggable entry, in registry iteration
order, that `hitTest` accepts. -/
def firstHitId (s : DndState) (p : Point) : Option Nat :=
  (s.draggableLayouts.find?
    (hitTest s.draggableOptions s.draggableOffsets s.draggableContentOffset p)).map
    (fun e => e.1)

/-- Spec-side hit predicate for a droppable entry: non-disabled and its
layout overlaps the given active layout. -/
def dropHitTest (options : List (Nat × DroppableOpts)) (activeLayout : Rectangle)
    (e : Nat × Rectangle) : Bool :=
  match lookupId options e.1 with
  | some opt => !opt.disabled && overlapsRectangle activeLayout e.2
  | none => false

/-- Spec-side selection: the first droppable entry, in registry iteration
order, that `dropHitTest` accepts. -/
def firstDropHitId (s : DndState) (activeLayout : Rectangle) : Option Nat :=
  (s.droppableLayouts.find? (dropHitTest s.droppableOptions activeLayout)).map
    (fun e => e.1)

/-- Well-formedness of the draggable registry: every id in the layouts map
has entries in the options, offsets, resting-offsets and states maps. -/
def draggableWF (s : DndState) : Prop :=
  ∀ e ∈ s.draggableLayouts,
    (lookupId s.draggableOptions e.1).isSome = true ∧
    (lookupId s.draggableOffsets e.1).isSome = true ∧
    (lookupId s.draggableRestingOffsets e.1).isSome = true ∧
    (lookupId s.draggableStates e.1).isSome = true

instance (s : DndState) : Decidable (draggableWF s) := by
  unfold draggableWF; infer_instance

/-- Well-formedness of the droppable registry: every id in the layouts map
has an options entry. -/
def droppableWF (s : DndState) : Prop :=
  ∀ e ∈ s.droppableLayouts, (lookupId s.droppableOptions e.1).isSome = true

instance (s : DndState) : Decidable (droppableWF s) := by
  unfold droppableWF; infer_instance

theorem lookupId_cons {α : Type} (k : Nat) (w : α) (rest : List (Nat × α))
    (j : Nat) :
    lookupId ((k, w) :: rest) j = if k = j then some w else lookupId rest j := by
  by_cases h : k = j
  · simp [lookupId, List.find?, h]
  · have hb : (k == j) = false := by simpa using h
    simp [lookupId, List.find?, hb, h]

theorem setEntry_cons {α : Type} (k : Nat) (w : α) (rest : List (Nat × α))
    (id : Nat) (v : α) :
    setEntry ((k, w) :: rest) id v =
      (if k = id then (id, v) else (k, w)) :: setEntry rest id v := by
  by_cases h : k = id
  · simp [setEntry, h]
  · simp [setEntry, h]

theorem lookupId_setEntry_self {α : Type} (l : List (Nat × α)) (id : Nat)
    (v : α) :
    lookupId (setEntry l id v) id = (lookupId l id).map (fun _ => v) := by
  induction l with
  | nil => rfl
  | cons e rest ih =>
    obtain ⟨k, w⟩ := e
    rw [setEntry_cons]
    by_cases h : k = id
    · simp [h, lookupId_cons]
    · rw [if_neg h, lookupId_cons, lookupId_cons, if_neg h, if_neg h, ih]

theorem lookupId_setEntry_ne {α : Type} (l : List (Nat × α)) (id j : Nat)
    (v : α) (h : j ≠ id) : lookupId (setEntry l id v) j = lookupId l j := by
  induction l with
  | nil => rfl
  | cons e rest ih =>
    obtain ⟨k, w⟩ := e
    rw [setEntry_cons]
    by_cases hk : k = id
    · rw [if_pos hk, lookupId_cons, if_neg (fun hij => h hij.symm), ih,
        lookupId_cons, if_neg (fun hkj => h (by rw [← hkj]; exact hk))]
    · rw [if_neg hk, lookupId_cons, lookupId_cons, ih]

theorem findActiveLayoutIdAux_eq (options : List (Nat × DraggableOpts))
    (offsets : List (Nat × Point)) (co p : Point) (l : List (Nat × Rectangle))
    (h : ∀ e ∈ l, (lookupId options e.1).isSome = true ∧
      (lookupId offsets e.1).isSome = true) :
    findActiveLayoutIdAux options offsets co p l =
      .ok ((l.find? (hitTest options offsets co p)).map (fun e => e.1)) := by
  induction l with
  | nil => rfl
  | cons e rest ih =>
    obtain ⟨id, layout⟩ := e
    obtain ⟨⟨h1, h2⟩, hrest⟩ := List.forall_mem_cons.mp h
    obtain ⟨opt, hopt⟩ := Option.isSome_iff_exists.mp h1
    obtain ⟨off, hoff⟩ := Option.isSome_iff_exists.mp h2
    have ihh := ih hrest
    cases hd : opt.disabled
    · cases hin : includesPoint layout ⟨p.x - off.x + co.x, p.y - off.y + co.y⟩
      · rw [List.find?_cons_of_neg _ (by simp [hitTest, hopt, hoff, hd, hin])]
        simpa [findActiveLayoutIdAux, hopt, hoff, hd, hin] using ihh
      · rw [List.find?_cons_of_pos _ (by simp [hitTest, hopt, hoff, hd, hin])]
        simp [findActiveLayoutIdAux, hopt, hoff, hd, hin]
    · rw [List.find?_cons_of_neg _ (by simp [hitTest, hopt, hoff, hd])]
      simpa [findActiveLayoutIdAux, hopt, hoff, hd] using ihh

theorem findDroppableLayoutIdAux_eq (options : List (Nat × DroppableOpts))
    (al : Rectangle) (l : List (Nat × Rectangle))
    (h : ∀ e ∈ l, (lookupId options e.1).isSome = true) :
    findDroppableLayoutIdAux options al l =
      .ok ((l.find? (dropHitTest options al)).map (fun e => e.1)) := by
  induction l with
  | nil => rfl
  | cons e rest ih =>
    obtain ⟨id, layout⟩ := e
    obtain ⟨h1, hrest⟩ := List.forall_mem_cons.mp h
    obtain ⟨opt, hopt⟩ := Option.isSome_iff_exists.mp h1
    have ihh := ih hrest
    cases hcond : (!opt.disabled && overlapsRectangle al layout)
    · rw [List.find?_cons_of_neg _ (by simp [dropHitTest, hopt, hcond])]
      simpa [findDroppableLayoutIdAux, hopt, hcond] using ihh
    · rw [List.find?_cons_of_pos _ (by simp [dropHitTest, hopt, hcond])]
      simp [findDroppableLayoutIdAux, hopt, hcond]

theorem findActiveLayoutId_eq (s : DndState) (p : Point) (h : draggableWF s) :
    findActiveLayoutId s p = .ok (firstHitId s p) := by
  refine findActiveLayoutIdAux_eq _ _ _ _ _ (fun e he => ?_)
  exact ⟨(h e he).1, (h e he).2.1⟩

theorem findDroppableLayoutId_eq (s : DndState) (al : Rectangle)
    (h : droppableWF s) :
    findDroppableLayoutId s al = .ok (firstDropHitId s al) :=
  findDroppableLayoutIdAux_eq _ _ _ h

/-- A provider state with empty registries and a fresh interaction cursor,
used as the base of concrete evaluation states. -/
def emptyState : DndState where
  draggableLayouts := []
  droppableLayouts := []
  draggableOptions := []
  droppableOptions := []
  draggableOffsets := []
  draggableRestingOffsets := []
  draggableStates := []
  draggablePendingId := none
  draggableActiveId := none
  droppableActiveId := none
  draggableActiveLayout := none
  draggableInitialOffset := ⟨0, 0⟩
  draggableContentOffset := ⟨0, 0⟩
  panGestureState := .undetermined
  scheduledTask := none
  animatingX := []
  animatingY := []

theorem onBegin_found_eq (cfg : Config) (ev : BeginEvent) (s : DndState)
    (id : Nat) (lay : Rectangle) (st : DragState) (off ro : Point)
    (opts : DraggableOpts)
    (hdis : cfg.disabled = false)
    (hfound : findActiveLayoutId s ⟨ev.x, ev.y⟩ = .ok (some id))
    (hlaye : lookupId s.draggableLayouts id = some lay)
    (hste : lookupId s.draggableStates id = some st)
    (hoffe : lookupId s.draggableOffsets id = some off)
    (hroe : lookupId s.draggableRestingOffsets id = some ro)
    (hopte : lookupId s.draggableOptions id = some opts) :
    onBegin cfg ev s =
      .ok
        ({ s with
             panGestureState := ev.state
             draggableInitialOffset := off
             animatingX :=
               if st = DragState.dragging ∨ st = DragState.acting then
                 s.animatingX.filter (fun j => j ≠ id)
               else s.animatingX
             animatingY :=
               if st = DragState.dragging ∨ st = DragState.acting then
                 s.animatingY.filter (fun j => j ≠ id)
               else s.animatingY
             draggableRestingOffsets :=
               if st = DragState.dragging ∨ st = DragState.acting then
                 s.draggableRestingOffsets
               else setEntry s.draggableRestingOffsets id off
             draggablePendingId :=
               if 0 < opts.activationDelay then some id
               else s.draggablePendingId
             scheduledTask :=
               if 0 < opts.activationDelay then some id else s.scheduledTask
             draggableStates :=
               setEntry s.draggableStates id
                 (if 0 < opts.activationDelay then .pending else .dragging)
             draggableActiveId :=
               if 0 < opts.activationDelay then s.draggableActiveId
               else some id
             draggableActiveLayout :=
               if 0 < opts.activationDelay then s.draggableActiveLayout
               else some (applyOffset lay off) },
          [CbEvent.begin id lay]) := by
  have hfound2 :
      findActiveLayoutIdAux s.draggableOptions s.draggableOffsets
        s.draggableContentOffset ⟨ev.x, ev.y⟩ s.draggableLayouts =
        .ok (some id) := hfound
  by_cases hst : st = DragState.dragging ∨ st = DragState.acting <;>
    by_cases hdel : 0 < opts.activationDelay <;>
      simp [onBegin, hdis, findActiveLayoutId, hfound2, hlaye, hste, hoffe,
        hroe, hopte, hst, hdel]

theorem onUpdate_active_eq (ev : UpdateEvent) (s : DndState) (id : Nat)
    (off : Point) (lay : Rectangle)
    (hact : s.draggableActiveId = some id)
    (hoffe : lookupId s.draggableOffsets id = some off)
    (hlaye : lookupId s.draggableLayouts id = some lay)
    (hwf : droppableWF s) :
    onUpdate ev s =
      .ok
        (let newOffset : Point :=
          ⟨s.draggableInitialOffset.x + ev.translationX,
           s.draggableInitialOffset.y + ev.translationY⟩
        let newLayout := applyOffset lay newOffset
        ({ s with
             panGestureState := ev.state
             draggableOffsets := setEntry s.draggableOffsets id newOffset
             draggableActiveLayout := some newLayout
             droppableActiveId := firstDropHitId s newLayout },
          [CbEvent.update id newLayout (firstDropHitId s newLayout)])) := by
  have hdrop :=
    findDroppableLayoutIdAux_eq s.droppableOptions
      (applyOffset lay
        ⟨s.draggableInitialOffset.x + ev.translationX,
         s.draggableInitialOffset.y + ev.translationY⟩)
      s.droppableLayouts hwf
  simp [onUpdate, hact, hoffe, hlaye, findDroppableLayoutId, hdrop,
    firstDropHitId]

theorem onFinalize_active_eq (ev : FinalizeEvent) (s : DndState) (id : Nat)
    (lay : Rectangle) (off ro : Point) (st : DragState)
    (hact : s.draggableActiveId = some id)
    (hlaye : lookupId s.draggableLayouts id = some lay)
    (hoffe : lookupId s.draggableOffsets id = some off)
    (hste : lookupId s.draggableStates id = some st)
    (hroe : lookupId s.draggableRestingOffsets id = some ro) :
    onFinalize ev s =
      .ok
        ({ s with
             panGestureState := ev.state
             draggableActiveId := none
             droppableActiveId := none
             draggableStates := setEntry s.draggableStates id .acting
             animatingX := id :: s.animatingX.filter (fun j => j ≠ id)
             animatingY := id :: s.animatingY.filter (fun j => j ≠ id) },
          CbEvent.finalize id (applyOffset lay off) ::
            (if ev.state ≠ GState.failed then
              [CbEvent.dragEnd (lookupId s.draggableOptions id)
                (match s.droppableActiveId with
                 | some dropId => lookupId s.droppableOptions dropId
                 | none => none)]
            else [])) := by
  by_cases hf : ev.state = GState.failed
  · simp [onFinalize, hact, hlaye, hoffe, hste, hroe, hf]
  · simp [onFinalize, hact, hlaye, hoffe, hste, hroe, hf]

/-- C1: On `Begin` (globally enabled, well-formed registry), the hit test
run by the handler returns exactly the first draggable, in registry
iteration order, that is non-disabled and whose layout rectangle contains
the pointer corrected by `contentOffset` and by the item's own live offset;
and when no item matches, the handler performs no transition and changes no
state and invokes no callback (the only write is the unconditional mirror
of the raw recognizer state into `panGestureState`). -/
theorem onBegin_hitTest_first_match (cfg : Config) (ev : BeginEvent)
    (s : DndState) (hdis : cfg.disabled = false) (hwf : draggableWF s) :
    findActiveLayoutId s ⟨ev.x, ev.y⟩ = .ok (firstHitId s ⟨ev.x, ev.y⟩) ∧
    (firstHitId s ⟨ev.x, ev.y⟩ = none →
      onBegin cfg ev s = .ok ({ s with panGestureState := ev.state }, [])) := by
  have hfind := findActiveLayoutId_eq s ⟨ev.x, ev.y⟩ hwf
  refine ⟨hfind, fun hnone => ?_⟩
  have hfind2 :
      findActiveLayoutIdAux s.draggableOptions s.draggableOffsets
        s.draggableContentOffset ⟨ev.x, ev.y⟩ s.draggableLayouts =
        .ok none := by
    rw [← hnone]; exact hfind
  simp [onBegin, hdis, findActiveLayoutId, hfind2]

/-- Concrete state for the C1 witness: a disabled item over the pointer at
`(5,5)` and a non-disabled item away from it, so the hit test matches
nothing. -/
def stateC1 : DndState :=
  { emptyState with
      draggableLayouts := [(1, ⟨0, 0, 10, 10⟩), (2, ⟨50, 50, 10, 10⟩)]
      draggableOptions := [(1, ⟨true, 0, 0, 0⟩), (2, ⟨false, 0, 0, 0⟩)]
      draggableOffsets := [(1, ⟨0, 0⟩), (2, ⟨0, 0⟩)]
      draggableRestingOffsets := [(1, ⟨0, 0⟩), (2, ⟨0, 0⟩)]
      draggableStates := [(1, .resting), (2, .resting)] }

/-- C1 witness: in `stateC1` with an enabled configuration the hit test
returns no match, discharging the hypotheses of the C1 theorem at a
concrete input. -/
theorem onBegin_hitTest_first_match_witness :
    Config.disabled ⟨false⟩ = false ∧ draggableWF stateC1 ∧
    findActiveLayoutId stateC1 ⟨5, 5⟩ = .ok (firstHitId stateC1 ⟨5, 5⟩) ∧
    onBegin ⟨false⟩ ⟨.began, 5, 5⟩ stateC1 =
      .ok ({ stateC1 with panGestureState := .began }, []) := by
  have h := onBegin_hitTest_first_match ⟨false⟩ ⟨.began, 5, 5⟩ stateC1 rfl
    (by decide)
  exact ⟨rfl, by decide, h.1, h.2 (by rfl)⟩

/-- C2: while an item is active, after an `Update` event the item's live
offset equals `initialOffset + translation`, on each axis independently and
with no clamping or snapping; this holds after every `Update` of an
arbitrary sequence between `Begin` and `Finalize`, since the prior live
offset (`off`) is arbitrary and the result depends only on `initialOffset`
and the current translation. -/
theorem onUpdate_live_offset_eq (ev : UpdateEvent) (s : DndState) (id : Nat)
    (off : Point) (lay : Rectangle)
    (hact : s.draggableActiveId = some id)
    (hoffe : lookupId s.draggableOffsets id = some off)
    (hlaye : lookupId s.draggableLayouts id = some lay)
    (hwf : droppableWF s) :
    ∃ s2 evs, onUpdate ev s = .ok (s2, evs) ∧
      lookupId s2.draggableOffsets id =
        some ⟨s.draggableInitialOffset.x + ev.translationX,
              s.draggableInitialOffset.y + ev.translationY⟩ := by
  refine ⟨_, _, onUpdate_active_eq ev s id off lay hact hoffe hlaye hwf, ?_⟩
  simp [lookupId_setEntry_self, hoffe]

/-- Concrete state for the C2 witness: item `1` is active and dragging with
initial offset `(3,4)`. -/
def stateC2 : DndState :=
  { emptyState with
      draggableLayouts := [(1, ⟨0, 0, 10, 10⟩)]
      draggableOptions := [(1, ⟨false, 0, 0, 0⟩)]
      draggableOffsets := [(1, ⟨3, 4⟩)]
      draggableRestingOffsets := [(1, ⟨0, 0⟩)]
      draggableStates := [(1, .dragging)]
      draggableActiveId := some 1
      draggableInitialOffset := ⟨3, 4⟩ }

/-- C2 witness: an `Update` with translation `(10,20)` on `stateC2` yields
live offset `(13,24) = (3,4) + (10,20)`. -/
theorem onUpdate_live_offset_eq_witness :
    stateC2.draggableActiveId = some 1 ∧ droppableWF stateC2 ∧
    ∃ s2 evs, onUpdate ⟨.active, 10, 20⟩ stateC2 = .ok (s2, evs) ∧
      lookupId s2.draggableOffsets 1 = some ⟨13, 24⟩ := by
  obtain ⟨s2, evs, h1, h2⟩ :=
    onUpdate_live_offset_eq ⟨.active, 10, 20⟩ stateC2 1 ⟨3, 4⟩ ⟨0, 0, 10, 10⟩
      rfl rfl rfl (by decide)
  exact ⟨rfl, by decide, s2, evs, h1, by rw [h2]; decide⟩

/-- C3: after an `Update` event with an active item, `droppableActiveId`
equals the first (in registry iteration order) non-disabled droppable whose
layout rectangle overlaps the active item's layout translated by its new
live offset (`initialOffset + translation`), or `none` when no such
droppable exists. -/
theorem onUpdate_droppableActiveId_eq (ev : UpdateEvent) (s : DndState)
    (id : Nat) (off : Point) (lay : Rectangle)
    (hact : s.draggableActiveId = some id)
    (hoffe : lookupId s.draggableOffsets id = some off)
    (hlaye : lookupId s.draggableLayouts id = some lay)
    (hwf : droppableWF s) :
    ∃ s2 evs, onUpdate ev s = .ok (s2, evs) ∧
      s2.droppableActiveId =
        firstDropHitId s
          (applyOffset lay
            ⟨s.draggableInitialOffset.x + ev.translationX,
             s.draggableInitialOffset.y + ev.translationY⟩) := by
  refine ⟨_, _, onUpdate_active_eq ev s id off lay hact hoffe hlaye hwf, ?_⟩
  rfl

/-- Concrete state for the C3 witness: item `1` is active at rest offset
zero; the droppable registry holds a non-overlapping droppable `6`, an
overlapping but disabled droppable `7`, and an overlapping non-disabled
droppable `8`. -/
def stateC3 : DndState :=
  { emptyState with
      draggableLayouts := [(1, ⟨0, 0, 10, 10⟩)]
      draggableOptions := [(1, ⟨false, 0, 0, 0⟩)]
      draggableOffsets := [(1, ⟨0, 0⟩)]
      draggableRestingOffsets := [(1, ⟨0, 0⟩)]
      draggableStates := [(1, .dragging)]
      draggableActiveId := some 1
      droppableLayouts :=
        [(6, ⟨100, 100, 10, 10⟩), (7, ⟨20, 0, 10, 10⟩), (8, ⟨20, 0, 10, 10⟩)]
      droppableOptions := [(6, ⟨false, 0⟩), (7, ⟨true, 0⟩), (8, ⟨false, 0⟩)] }

/-- C3 witness: an `Update` with translation `(15,0)` moves the active
rectangle to `(15,0,10,10)`, which overlaps droppables `7` and `8`;
droppable `6` does not overlap and `7` is disabled, so `droppableActiveId`
becomes `8`, the first non-disabled overlapping droppable. -/
theorem onUpdate_droppableActiveId_eq_witness :
    stateC3.draggableActiveId = some 1 ∧ droppableWF stateC3 ∧
    firstDropHitId stateC3 (applyOffset ⟨0, 0, 10, 10⟩ ⟨15, 0⟩) = some 8 ∧
    ∃ s2 evs, onUpdate ⟨.active, 15, 0⟩ stateC3 = .ok (s2, evs) ∧
      s2.droppableActiveId = some 8 := by
  obtain ⟨s2, evs, h1, h2⟩ :=
    onUpdate_droppableActiveId_eq ⟨.active, 15, 0⟩ stateC3 1 ⟨0, 0⟩
      ⟨0, 0, 10, 10⟩ rfl rfl rfl (by decide)
  exact ⟨rfl, by decide, by decide, s2, evs, h1, by rw [h2]; decide⟩

/-- C4: when `Begin` selects an item whose prior state is `dragging` or
`acting`, both axes of its in-flight live-offset animation are cancelled and
the resting-offsets map is left entirely unchanged; otherwise (prior state
`resting` or `pending`) the item's live offset is copied into its resting
offset and no other item's resting offset is touched.  Hence the resting
offset is only ever mutated when the prior state was not
`dragging`/`acting`. -/
theorem onBegin_regrab_cancel_or_reset (cfg : Config) (ev : BeginEvent)
    (s : DndState) (id : Nat) (lay : Rectangle) (st : DragState)
    (off ro : Point) (opts : DraggableOpts)
    (hdis : cfg.disabled = false)
    (hfound : findActiveLayoutId s ⟨ev.x, ev.y⟩ = .ok (some id))
    (hlaye : lookupId s.draggableLayouts id = some lay)
    (hste : lookupId s.draggableStates id = some st)
    (hoffe : lookupId s.draggableOffsets id = some off)
    (hroe : lookupId s.draggableRestingOffsets id = some ro)
    (hopte : lookupId s.draggableOptions id = some opts) :
    ∃ s2 evs, onBegin cfg ev s = .ok (s2, evs) ∧
      (if st = DragState.dragging ∨ st = DragState.acting then
        id ∉ s2.animatingX ∧ id ∉ s2.animatingY ∧
        s2.draggableRestingOffsets = s.draggableRestingOffsets
      else
        lookupId s2.draggableRestingOffsets id = some off ∧
        ∀ j, j ≠ id →
          lookupId s2.draggableRestingOffsets j =
            lookupId s.draggableRestingOffsets j) := by
  refine ⟨_, _,
    onBegin_found_eq cfg ev s id lay st off ro opts hdis hfound hlaye hste
      hoffe hroe hopte, ?_⟩
  by_cases hst : st = DragState.dragging ∨ st = DragState.acting
  · rw [if_pos hst]
    refine ⟨?_, ?_, ?_⟩ <;> simp [hst, List.mem_filter]
  · rw [if_neg hst]
    constructor
    · simp [hst, lookupId_setEntry_self, hroe]
    · intro j hj
      simp [hst, lookupId_setEntry_ne _ _ _ _ hj]

/-- Concrete state for the C4 witness: item `1` is mid return-animation
(state `acting`, both axes animating) with live offset `(5,5)` and resting
offset `(9,9)`; a second resting item `2` checks resting-map preservation
in the other branch. -/
def stateC4 : DndState :=
  { emptyState with
      draggableLayouts := [(1, ⟨0, 0, 10, 10⟩), (2, ⟨100, 0, 10, 10⟩)]
      draggableOptions := [(1, ⟨false, 0, 0, 0⟩), (2, ⟨false, 0, 0, 0⟩)]
      draggableOffsets := [(1, ⟨5, 5⟩), (2, ⟨1, 2⟩)]
      draggableRestingOffsets := [(1, ⟨9, 9⟩), (2, ⟨0, 0⟩)]
      draggableStates := [(1, .acting), (2, .resting)]
      animatingX := [1]
      animatingY := [1] }

/-- C4 witness: re-grabbing the `acting` item `1` of `stateC4` at pointer
`(7,8)` (which its offset-corrected layout contains) cancels both axis
animations and leaves the resting-offsets map unchanged — in particular the
resting offset stays `(9,9)` even though the live offset is `(5,5)`. -/
theorem onBegin_regrab_cancel_or_reset_witness :
    findActiveLayoutId stateC4 ⟨7, 8⟩ = .ok (some 1) ∧
    lookupId stateC4.draggableStates 1 = some .acting ∧
    ∃ s2 evs, onBegin ⟨false⟩ ⟨.began, 7, 8⟩ stateC4 = .ok (s2, evs) ∧
      1 ∉ s2.animatingX ∧ 1 ∉ s2.animatingY ∧
      s2.draggableRestingOffsets = stateC4.draggableRestingOffsets := by
  obtain ⟨s2, evs, h1, h2⟩ :=
    onBegin_regrab_cancel_or_reset ⟨false⟩ ⟨.began, 7, 8⟩ stateC4 1
      ⟨0, 0, 10, 10⟩ .acting ⟨5, 5⟩ ⟨9, 9⟩ ⟨false, 0, 0, 0⟩ rfl rfl rfl rfl
      rfl rfl rfl
  rw [if_pos (Or.inr rfl)] at h2
  exact ⟨rfl, rfl, s2, evs, h1, h2⟩

/-- C5: on `Finalize` with an active item, the `onDragEnd` callback is
invoked iff the terminating gesture state is not `FAILED`; when invoked its
argument carries `active` equal to the active draggable's registered
options and `over` equal to the currently overlapped droppable's registered
options, or `none` when no droppable is overlapped. -/
theorem onFinalize_dragEnd_iff (ev : FinalizeEvent) (s : DndState) (id : Nat)
    (lay : Rectangle) (off ro : Point) (st : DragState) (aopts : DraggableOpts)
    (hact : s.draggableActiveId = some id)
    (hlaye : lookupId s.draggableLayouts id = some lay)
    (hoffe : lookupId s.draggableOffsets id = some off)
    (hste : lookupId s.draggableStates id = some st)
    (hroe : lookupId s.draggableRestingOffsets id = some ro)
    (haopts : lookupId s.draggableOptions id = some aopts) :
    ∃ s2 evs, onFinalize ev s = .ok (s2, evs) ∧
      (ev.state = GState.failed →
        evs = [CbEvent.finalize id (applyOffset lay off)]) ∧
      (ev.state ≠ GState.failed →
        evs = [CbEvent.finalize id (applyOffset lay off),
               CbEvent.dragEnd (some aopts)
                 (match s.droppableActiveId with
                  | some dropId => lookupId s.droppableOptions dropId
                  | none => none)]) := by
  refine ⟨_, _,
    onFinalize_active_eq ev s id lay off ro st hact hlaye hoffe hste hroe,
    fun hf => ?_, fun hf => ?_⟩
  · simp [hf]
  · simp [hf, haopts]

/-- Concrete state for the C5 witness: item `1` is active over droppable `2`
(whose registered options carry payload `9`). -/
def stateC5 : DndState :=
  { emptyState with
      draggableLayouts := [(1, ⟨0, 0, 10, 10⟩)]
      draggableOptions := [(1, ⟨false, 0, 0, 7⟩)]
      draggableOffsets := [(1, ⟨15, 0⟩)]
      draggableRestingOffsets := [(1, ⟨0, 0⟩)]
      draggableStates := [(1, .dragging)]
      draggableActiveId := some 1
      droppableActiveId := some 2
      droppableLayouts := [(2, ⟨20, 0, 10, 10⟩)]
      droppableOptions := [(2, ⟨false, 9⟩)] }

/-- C5 witness: finalizing `stateC5` with gesture state `END` emits
`dragEnd` with `active` the registered options of item `1` and `over` the
registered options of droppable `2`; finalizing with `FAILED` emits no
`dragEnd` at all. -/
theorem onFinalize_dragEnd_iff_witness :
    stateC5.draggableActiveId = some 1 ∧
    (∃ s2 evs, onFinalize ⟨.ended, 0, 0⟩ stateC5 = .ok (s2, evs) ∧
      evs = [CbEvent.finalize 1 (applyOffset ⟨0, 0, 10, 10⟩ ⟨15, 0⟩),
             CbEvent.dragEnd (some ⟨false, 0, 0, 7⟩) (some ⟨false, 9⟩)]) ∧
    (∃ s2 evs, onFinalize ⟨.failed, 0, 0⟩ stateC5 = .ok (s2, evs) ∧
      evs = [CbEvent.finalize 1 (applyOffset ⟨0, 0, 10, 10⟩ ⟨15, 0⟩)]) := by
  obtain ⟨s2, evs, h1, _, h3⟩ :=
    onFinalize_dragEnd_iff ⟨.ended, 0, 0⟩ stateC5 1 ⟨0, 0, 10, 10⟩ ⟨15, 0⟩
      ⟨0, 0⟩ .dragging ⟨false, 0, 0, 7⟩ rfl rfl rfl rfl rfl rfl
  obtain ⟨t2, tvs, g1, g2, _⟩ :=
    onFinalize_dragEnd_iff ⟨.failed, 0, 0⟩ stateC5 1 ⟨0, 0, 10, 10⟩ ⟨15, 0⟩
      ⟨0, 0⟩ .dragging ⟨false, 0, 0, 7⟩ rfl rfl rfl rfl rfl rfl
  refine ⟨rfl, ⟨s2, evs, h1, ?_⟩, ⟨t2, tvs, g1, g2 rfl⟩⟩
  rw [h3 (by decide)]
  rfl

/-- C6: for a pending item (delayed activation scheduled, no active item),
an `Update` whose movement from gesture start exceeds the item's
`activationTolerance` cancels the deferred activation and clears
`pendingId`, after which firing the (now cancelled) timer is a no-op, so
the item never reaches `dragging` through it; an `Update` within tolerance
changes nothing, and when the delay elapses the scheduled task fires,
setting the item to `dragging` and `activeId` to it, and consumes the task
so it can fire at most once.  (`getDistance > tolerance` is modelled as the
equivalent squared comparison.) -/
theorem pending_tolerance_activation (ev : UpdateEvent) (s : DndState)
    (id : Nat) (opts : DraggableOpts)
    (hact : s.draggableActiveId = none)
    (hpend : s.draggablePendingId = some id)
    (hopte : lookupId s.draggableOptions id = some opts) :
    (getDistanceSq ev.translationX ev.translationY >
        (opts.activationTolerance : Int) * (opts.activationTolerance : Int) →
      onUpdate ev s =
        .ok ({ s with
                 panGestureState := ev.state
                 scheduledTask := none
                 draggablePendingId := none }, []) ∧
      setActiveIdFired
          { s with
              panGestureState := ev.state
              scheduledTask := none
              draggablePendingId := none } =
        .ok { s with
                panGestureState := ev.state
                scheduledTask := none
                draggablePendingId := none }) ∧
    (¬getDistanceSq ev.translationX ev.translationY >
        (opts.activationTolerance : Int) * (opts.activationTolerance : Int) →
      onUpdate ev s = .ok ({ s with panGestureState := ev.state }, [])) ∧
    (∀ st, s.scheduledTask = some id →
      lookupId s.draggableStates id = some st →
      setActiveIdFired s =
        .ok { s with
                draggableActiveId := some id
                draggableStates := setEntry s.draggableStates id .dragging
                scheduledTask := none }) := by
  refine ⟨fun hd => ⟨?_, ?_⟩, fun hd => ?_, fun st htask hste => ?_⟩
  · simp [onUpdate, hact, hpend, hopte, hd]
  · simp [setActiveIdFired]
  · simp [onUpdate, hact, hpend, hopte, hd]
  · simp [setActiveIdFired, htask, hste]

/-- Concrete state for the C6 witness: item `1` is pending with tolerance
`5` and its deferred activation task scheduled. -/
def stateC6 : DndState :=
  { emptyState with
      draggableLayouts := [(1, ⟨0, 0, 10, 10⟩)]
      draggableOptions := [(1, ⟨false, 100, 5, 0⟩)]
      draggableOffsets := [(1, ⟨0, 0⟩)]
      draggableRestingOffsets := [(1, ⟨0, 0⟩)]
      draggableStates := [(1, .pending)]
      draggablePendingId := some 1
      scheduledTask := some 1 }

/-- C6 witness: on `stateC6`, an `Update` with translation `(4,4)`
(distance² = 32 > 25 = tolerance²) clears `pendingId` and the scheduled
task, and firing afterwards changes nothing; an `Update` with translation
`(3,0)` (9 ≤ 25) leaves the pending activation intact; firing the intact
task activates item `1` as `dragging` exactly once. -/
theorem pending_tolerance_activation_witness :
    stateC6.draggablePendingId = some 1 ∧ stateC6.scheduledTask = some 1 ∧
    (∃ s2, onUpdate ⟨.active, 4, 4⟩ stateC6 = .ok (s2, []) ∧
      s2.draggablePendingId = none ∧ s2.scheduledTask = none ∧
      setActiveIdFired s2 = .ok s2) ∧
    (∃ s3, onUpdate ⟨.active, 3, 0⟩ stateC6 = .ok (s3, []) ∧
      s3.draggablePendingId = some 1 ∧ s3.scheduledTask = some 1) ∧
    (∃ s4, setActiveIdFired stateC6 = .ok s4 ∧
      s4.draggableActiveId = some 1 ∧
      lookupId s4.draggableStates 1 = some .dragging ∧
      s4.scheduledTask = none) := by
  obtain ⟨hover, hwithin, hfire⟩ :=
    pending_tolerance_activation ⟨.active, 4, 4⟩ stateC6 1 ⟨false, 100, 5, 0⟩
      rfl rfl rfl
  obtain ⟨h1, h2⟩ := hover (by decide)
  obtain ⟨-, hwithin2, -⟩ :=
    pending_tolerance_activation ⟨.active, 3, 0⟩ stateC6 1 ⟨false, 100, 5, 0⟩
      rfl rfl rfl
  have hfired := hfire DragState.pending rfl rfl
  refine ⟨rfl, rfl, ⟨_, h1, rfl, rfl, h2⟩, ⟨_, hwithin2 (by decide), rfl, rfl⟩,
    ⟨_, hfired, rfl, ?_, rfl⟩⟩
  rw [lookupId_setEntry_self]
  rfl

/-- C7: the return-animation settle callback leaves the state unchanged when
the last-observed recognizer state is neither `END` nor `FAILED` and the
item's state is no longer `acting` (a re-grab superseded the animation);
in every other case it transitions the item's state to `resting`. -/
theorem onSettle_spec (s : DndState) (id : Nat) (st : DragState)
    (hste : lookupId s.draggableStates id = some st) :
    ((s.panGestureState ≠ GState.ended ∧ s.panGestureState ≠ GState.failed ∧
        st ≠ DragState.acting) →
      onSettle id s = .ok s) ∧
    (¬(s.panGestureState ≠ GState.ended ∧ s.panGestureState ≠ GState.failed ∧
        st ≠ DragState.acting) →
      onSettle id s =
        .ok { s with
                draggableStates := setEntry s.draggableStates id .resting }) := by
  constructor
  · intro h
    simp [onSettle, hste, h.1, h.2.1, h.2.2]
  · intro h
    simp only [onSettle, hste]
    rw [if_neg h]

/-- Concrete state for the C7 witness (abandon case): the recognizer was
last seen `ACTIVE` (a new gesture re-grabbed the item) and item `1` is
`dragging`, no longer `acting`. -/
def stateC7a : DndState :=
  { emptyState with
      draggableStates := [(1, .dragging)]
      panGestureState := .active }

/-- Concrete state for the C7 witness (settle case): the recognizer ended
and item `1` is still `acting`. -/
def stateC7b : DndState :=
  { emptyState with
      draggableStates := [(1, .acting)]
      panGestureState := .ended }

/-- C7 witness: on `stateC7a` (recognizer `ACTIVE`, item no longer
`acting`) the settle callback changes nothing; on `stateC7b` (recognizer
`END`) it sets item `1` to `resting`. -/
theorem onSettle_spec_witness :
    lookupId stateC7a.draggableStates 1 = some .dragging ∧
    onSettle 1 stateC7a = .ok stateC7a ∧
    lookupId stateC7b.draggableStates 1 = some .acting ∧
    ∃ s2, onSettle 1 stateC7b = .ok s2 ∧
      lookupId s2.draggableStates 1 = some .resting := by
  have ha := (onSettle_spec stateC7a 1 .dragging rfl).1 (by decide)
  have hb := (onSettle_spec stateC7b 1 .acting rfl).2 (by decide)
  exact ⟨rfl, ha, rfl, ⟨_, hb, by decide⟩⟩

/-- Concrete state for C8: item `1` has layout `(0,0,10,10)` and a nonzero
live offset `(5,0)`, immediate activation (`activationDelay = 0`). -/
def stateC8 : DndState :=
  { emptyState with
      draggableLayouts := [(1, ⟨0, 0, 10, 10⟩)]
      draggableOptions := [(1, ⟨false, 0, 0, 0⟩)]
      draggableOffsets := [(1, ⟨5, 0⟩)]
      draggableRestingOffsets := [(1, ⟨0, 0⟩)]
      draggableStates := [(1, .resting)] }

/-- C8 counterexample: beginning at pointer `(7,3)` on `stateC8` activates
item `1`; the stored `draggableActiveLayout` is the translated rectangle
`(5,0,10,10)`, but the `onBegin` callback receives the untranslated layout
`(0,0,10,10)`, which differs from the layout translated by the live offset
`(5,0)` — so the layout computed and the layout passed to `onBegin` are not
both the translated rectangle. -/
theorem onBegin_callback_layout_cex :
    (Except.map (fun r => (r.1.draggableActiveLayout, r.2))
        (onBegin ⟨false⟩ ⟨.began, 7, 3⟩ stateC8) =
      .ok (some ⟨5, 0, 10, 10⟩, [CbEvent.begin 1 ⟨0, 0, 10, 10⟩])) ∧
    (⟨0, 0, 10, 10⟩ : Rectangle) ≠ applyOffset ⟨0, 0, 10, 10⟩ ⟨5, 0⟩ :=
  ⟨rfl, by decide⟩

/-- C8 amended: when `Begin` immediately activates an item
(`activationDelay = 0`), the `activeLayout` it computes and stores in
`draggableActiveLayout` equals the item's layout rectangle translated by
the item's live offset at gesture begin, with size unchanged; the
`onBegin` callback, however, receives the item's untranslated layout
rectangle. -/
theorem onBegin_activeLayout_amended (cfg : Config) (ev : BeginEvent)
    (s : DndState) (id : Nat) (lay : Rectangle) (st : DragState)
    (off ro : Point) (opts : DraggableOpts)
    (hdis : cfg.disabled = false)
    (hfound : findActiveLayoutId s ⟨ev.x, ev.y⟩ = .ok (some id))
    (hlaye : lookupId s.draggableLayouts id = some lay)
    (hste : lookupId s.draggableStates id = some st)
    (hoffe : lookupId s.draggableOffsets id = some off)
    (hroe : lookupId s.draggableRestingOffsets id = some ro)
    (hopte : lookupId s.draggableOptions id = some opts)
    (hdel : opts.activationDelay = 0) :
    ∃ s2, onBegin cfg ev s = .ok (s2, [CbEvent.begin id lay]) ∧
      s2.draggableActiveLayout = some (applyOffset lay off) ∧
      (applyOffset lay off).width = lay.width ∧
      (applyOffset lay off).height = lay.height := by
  refine ⟨_,
    onBegin_found_eq cfg ev s id lay st off ro opts hdis hfound hlaye hste
      hoffe hroe hopte, ?_, rfl, rfl⟩
  simp [hdel]

/-- C8 amended witness: on `stateC8`, `Begin` at `(7,3)` stores
`draggableActiveLayout = (5,0,10,10)`, the layout translated by the live
offset, with unchanged size. -/
theorem onBegin_activeLayout_amended_witness :
    lookupId stateC8.draggableOptions 1 =
      some ⟨false, 0, 0, 0⟩ ∧
    ∃ s2, onBegin ⟨false⟩ ⟨.began, 7, 3⟩ stateC8 =
        .ok (s2, [CbEvent.begin 1 ⟨0, 0, 10, 10⟩]) ∧
      s2.draggableActiveLayout =
        some (applyOffset ⟨0, 0, 10, 10⟩ ⟨5, 0⟩) := by
  obtain ⟨s2, h1, h2, -, -⟩ :=
    onBegin_activeLayout_amended ⟨false⟩ ⟨.began, 7, 3⟩ stateC8 1
      ⟨0, 0, 10, 10⟩ .resting ⟨5, 0⟩ ⟨0, 0⟩ ⟨false, 0, 0, 0⟩ rfl rfl rfl rfl
      rfl rfl rfl rfl
  exact ⟨rfl, s2, h1, h2⟩

/-- Concrete state for C9: id `0` is present in the draggable layouts map
but absent from the draggable options map; a stale `pendingId = 3` has no
options entry either. -/
def stateC9 : DndState :=
  { emptyState with
      draggableLayouts := [(0, ⟨0, 0, 10, 10⟩)]
      draggablePendingId := some 3 }

/-- C9 counterexample: hit-testing `stateC9` dereferences
`options[0].disabled` for the id iterated from the layouts map without an
existence check and fails with a type error instead of treating the id as
"no such item"; likewise an item-free `Update` dereferences
`options[pendingId]` for the stale pending id `3` and fails. -/
theorem unguarded_read_cex :
    findActiveLayoutId stateC9 ⟨5, 5⟩ = .error () ∧
    onUpdate ⟨.active, 0, 0⟩ stateC9 = .error () :=
  ⟨rfl, rfl⟩

/-- C9 amended: registry reads in hit-testing and offset updates are not
guarded by defensive existence checks: whenever the first entry of the
draggable layouts map has no options entry, the hit test fails with a type
error; and whenever `pendingId` is set to an id with no options entry, an
item-free `Update` fails with a type error — in both cases the absent id is
not treated as "no such item". -/
theorem unguarded_registry_reads (s : DndState) :
    (∀ id rect rest p, s.draggableLayouts = (id, rect) :: rest →
      lookupId s.draggableOptions id = none →
      findActiveLayoutId s p = .error ()) ∧
    (∀ (ev : UpdateEvent) pid, s.draggableActiveId = none →
      s.draggablePendingId = some pid →
      lookupId s.draggableOptions pid = none →
      onUpdate ev s = .error ()) := by
  constructor
  · intro id rect rest p hlay hnone
    simp [findActiveLayoutId, hlay, findActiveLayoutIdAux, hnone]
  · intro ev pid hact hpend hnone
    simp [onUpdate, hact, hpend, hnone]

/-- C9 amended witness: both unguarded-read failures occur on the concrete
state `stateC9`. -/
theorem unguarded_registry_reads_witness :
    stateC9.draggableLayouts = [(0, ⟨0, 0, 10, 10⟩)] ∧
    lookupId stateC9.draggableOptions 0 = none ∧
    findActiveLayoutId stateC9 ⟨5, 5⟩ = .error () ∧
    onUpdate ⟨.active, 0, 0⟩ stateC9 = .error () := by
  obtain ⟨h1, h2⟩ := unguarded_registry_reads stateC9
  exact ⟨rfl, rfl, h1 0 ⟨0, 0, 10, 10⟩ [] ⟨5, 5⟩ rfl rfl,
    h2 ⟨.active, 0, 0⟩ 3 rfl rfl rfl⟩

theorem onUpdate_pending_over_clears (ev : UpdateEvent) (s : DndState)
    (pid : Nat) (opts : DraggableOpts)
    (hact : s.draggableActiveId = none)
    (hpend : s.draggablePendingId = some pid)
    (hopte : lookupId s.draggableOptions pid = some opts)
    (hdist : getDistanceSq ev.translationX ev.translationY >
      (opts.activationTolerance : Int) * (opts.activationTolerance : Int)) :
    ∃ s3, onUpdate ev s = .ok (s3, []) ∧ s3.draggablePendingId = none := by
  refine ⟨{ s with
              panGestureState := ev.state
              scheduledTask := none
              draggablePendingId := none }, ?_, rfl⟩
  simp [onUpdate, hact, hpend, hopte, hdist]

/-- C10: `Finalize` with an active item clears only `activeId` and
`droppableActiveId` and leaves `draggablePendingId` unchanged, and the
deferred activation sets `activeId` without clearing `draggablePendingId`;
consequently, after a delayed drag activates (timer fires) and finalizes,
`pendingId` still holds the old item's id, and a later item-free `Update`
re-runs the tolerance check against that stale `pendingId` (here an
over-tolerance translation clears it, showing the check ran). -/
theorem stale_pendingId_after_delayed_drag (ev1 : FinalizeEvent)
    (ev2 : UpdateEvent) (s : DndState) (id : Nat) (lay : Rectangle)
    (off ro : Point) (st : DragState) (opts : DraggableOpts)
    (hpend : s.draggablePendingId = some id)
    (htask : s.scheduledTask = some id)
    (hlaye : lookupId s.draggableLayouts id = some lay)
    (hoffe : lookupId s.draggableOffsets id = some off)
    (hste : lookupId s.draggableStates id = some st)
    (hroe : lookupId s.draggableRestingOffsets id = some ro)
    (hopte : lookupId s.draggableOptions id = some opts)
    (hdist : getDistanceSq ev2.translationX ev2.translationY >
      (opts.activationTolerance : Int) * (opts.activationTolerance : Int)) :
    ∃ s1, setActiveIdFired s = .ok s1 ∧ s1.draggableActiveId = some id ∧
      s1.draggablePendingId = some id ∧
      ∃ s2 evs, onFinalize ev1 s1 = .ok (s2, evs) ∧
        s2.draggableActiveId = none ∧ s2.droppableActiveId = none ∧
        s2.draggablePendingId = some id ∧
        ∃ s3, onUpdate ev2 s2 = .ok (s3, []) ∧
          s3.draggablePendingId = none := by
  have hste1 :
      lookupId (setEntry s.draggableStates id DragState.dragging) id =
        some DragState.dragging := by
    rw [lookupId_setEntry_self, hste]; rfl
  refine ⟨{ s with
              draggableActiveId := some id
              draggableStates := setEntry s.draggableStates id .dragging
              scheduledTask := none },
    by simp [setActiveIdFired, htask, hste], rfl, hpend, _, _,
    onFinalize_active_eq ev1 _ id lay off ro DragState.dragging rfl hlaye
      hoffe hste1 hroe,
    rfl, rfl, hpend, ?_⟩
  exact onUpdate_pending_over_clears ev2 _ id opts rfl hpend hopte hdist

/-- Concrete state for the C10 witness: item `1` is pending with its
deferred activation scheduled and `activationTolerance = 0`. -/
def stateC10 : DndState :=
  { emptyState with
      draggableLayouts := [(1, ⟨0, 0, 10, 10⟩)]
      draggableOptions := [(1, ⟨false, 100, 0, 0⟩)]
      draggableOffsets := [(1, ⟨0, 0⟩)]
      draggableRestingOffsets := [(1, ⟨0, 0⟩)]
      draggableStates := [(1, .pending)]
      draggablePendingId := some 1
      scheduledTask := some 1 }

/-- C10 witness: on `stateC10` the delayed activation fires, a `Finalize`
then clears `activeId` and `droppableActiveId` but leaves
`pendingId = some 1`, and a later item-free `Update` with translation
`(1,0)` re-runs the tolerance check against the stale pending id and
clears it. -/
theorem stale_pendingId_after_delayed_drag_witness :
    stateC10.draggablePendingId = some 1 ∧ stateC10.scheduledTask = some 1 ∧
    ∃ s1, setActiveIdFired stateC10 = .ok s1 ∧
      s1.draggableActiveId = some 1 ∧ s1.draggablePendingId = some 1 ∧
      ∃ s2 evs, onFinalize ⟨.ended, 0, 0⟩ s1 = .ok (s2, evs) ∧
        s2.draggableActiveId = none ∧ s2.droppableActiveId = none ∧
        s2.draggablePendingId = some 1 ∧
        ∃ s3, onUpdate ⟨.active, 1, 0⟩ s2 = .ok (s3, []) ∧
          s3.draggablePendingId = none := by
  obtain ⟨s1, h1, h2, h3, rest⟩ :=
    stale_pendingId_after_delayed_drag ⟨.ended, 0, 0⟩ ⟨.active, 1, 0⟩
      stateC10 1 ⟨0, 0, 10, 10⟩ ⟨0, 0⟩ ⟨0, 0⟩ .pending ⟨false, 100, 0, 0⟩
      rfl rfl rfl rfl rfl rfl rfl (by decide)
  exact ⟨rfl, rfl, s1, h1, h2, h3, rest⟩
